import Mathlib

/-!
Verification development for the Product-Discovery-Agent repository.

The repository serves natural-language product search over a Milvus vector
index.  This file gives a shallow embedding of its core:

* the filter predicate builder of `search_products_logic`
  (`src/p_discovery_agent/mcp_server_http.py` and `src/gcp_simulation/main.py`,
  identical in both files);
* the relevance scorer `(1 / (1 + distance)) * 100` rendered with one decimal;
* the two `search_products_logic` implementations (MCP HTTP server and GCP
  simulation), with the embedding model and the Milvus collection modelled as
  externally supplied capabilities in a `ServerState`;
* the JSON-RPC dispatcher `handle_mcp` of the HTTP server;
* the ETL insertion pipeline of `src/etl/ingest.py`.

Machine floats are idealised as rationals; the external embedding model and
the vector index are parameters of the state, as the specification treats
them as black-box collaborators.
-/

/- ===================== Python float rendering ===================== -/

/-- Least number of decimal digits after the point needed to write a fraction
with denominator `d` exactly, when `d` divides a power of ten (it always does
for values that are exact binary floats scaled by powers of ten used in this
development). -/
def decDigits (d : Nat) : Option Nat :=
  (List.range 18).find? (fun k => 10 ^ k % d == 0)

/-- Pad a digit string on the left with zeros up to length `k`. -/
def padZeros (k : Nat) (s : String) : String :=
  String.join (List.replicate (k - s.length) "0") ++ s

/-- Python `str()` of a float that holds the rational `q` exactly: the
shortest decimal rendering, always with at least one digit after the point
(`str(0.0) = "0.0"`, `str(99.5) = "99.5"`).  Used for the value interpolated
into the f-string `f"price <= {max_price}"`. -/
def pyFloatStr (q : ℚ) : String :=
  let sign := if q < 0 then "-" else ""
  let n := q.num.natAbs
  let d := q.den
  match decDigits d with
  | some 0 => sign ++ toString n ++ ".0"
  | some k =>
      let scaled := n * (10 ^ k / d)
      let ip := scaled / 10 ^ k
      let fp := scaled % 10 ^ k
      sign ++ toString ip ++ "." ++ padZeros k (toString fp)
  | none => sign ++ toString n ++ "e0"

/- ===================== Filter Predicate Builder ===================== -/

/-- The request-scoped filter value object (spec section 3,
`search_products_logic` keyword arguments).  `max_price` and the string
fields are optional; `in_stock_only` defaults to false. -/
structure SearchFilter where
  max_price : Option ℚ
  category : Option String
  in_stock_only : Bool
  brand : Option String
deriving DecidableEq

/-- The dynamic filter construction of `search_products_logic`
(mcp_server_http.py lines 91-97, gcp_simulation/main.py lines 78-88),
mirroring the sequential `filter_parts.append` calls.  The string fields are
Python-truthiness tested (`if category:`), so an empty string contributes no
constraint; `max_price` is compared against `None`. -/
def build_filter_parts (f : SearchFilter) : List String :=
  let parts : List String := []
  let parts := match f.max_price with
    | some mp => parts ++ ["price <= " ++ pyFloatStr mp]
    | none => parts
  let parts := match f.category with
    | some c => if c = "" then parts else parts ++ ["category == \"" ++ c ++ "\""]
    | none => parts
  let parts := if f.in_stock_only then parts ++ ["in_stock == true"] else parts
  let parts := match f.brand with
    | some b => if b = "" then parts else parts ++ ["brand == \"" ++ b ++ "\""]
    | none => parts
  parts

/-- The join `" && ".join(filter_parts) if filter_parts else ""`: the Milvus boolean
expression handed to `collection.search`; the empty string is the
unconstrained match-all predicate. -/
def filter_expr (f : SearchFilter) : String :=
  let parts := build_filter_parts f
  if parts = [] then "" else String.intercalate " && " parts

/-- Spec-side description (spec section 4.2): the atomic constraint
contributed by `max_price` when present. -/
def priceConstraint : Option ℚ → List String
  | some mp => ["price <= " ++ pyFloatStr mp]
  | none => []

/-- Spec-side description: the constraint contributed by `category` when
present (a present-but-empty string is treated as absent, the effective
presence notion of the code). -/
def categoryConstraint : Option String → List String
  | some c => if c = "" then [] else ["category == \"" ++ c ++ "\""]
  | none => []

/-- Spec-side description: `in_stock_only = true` contributes
`in_stock == true`; false or absent contributes nothing. -/
def stockConstraint : Bool → List String
  | true => ["in_stock == true"]
  | false => []

/-- Spec-side description: the constraint contributed by `brand` when
present (empty string treated as absent). -/
def brandConstraint : Option String → List String
  | some b => if b = "" then [] else ["brand == \"" ++ b ++ "\""]
  | none => []

/-- Modelled from the spec wording (section 4.2 and section 8): the list of
exactly the atomic constraints of the non-absent fields, in the builder's
field order. -/
def specConstraints (f : SearchFilter) : List String :=
  priceConstraint f.max_price ++ categoryConstraint f.category ++
    stockConstraint f.in_stock_only ++ brandConstraint f.brand

/-- Modelled from the spec wording: the conjunction (joined with the
index's logical AND) of exactly the constraints of the non-absent fields;
an all-absent filter yields the unconstrained (empty) predicate. -/
def specPredicate (f : SearchFilter) : String :=
  String.intercalate " && " (specConstraints f)

/- ===================== Relevance Scorer ===================== -/

/-- Round to the nearest integer, ties to even — the rounding of Python's
`format(x, ".1f")` applied after scaling by ten. -/
def roundHalfEven (q : ℚ) : Int :=
  let f : Int := q.floor
  let r : ℚ := q - (f : ℚ)
  if r < 1 / 2 then f
  else if 1 / 2 < r then f + 1
  else if f % 2 = 0 then f else f + 1

/-- Python `f"{x:.1f}"`: fixed-point rendering with one digit after the
point. -/
def formatFixed1 (q : ℚ) : String :=
  let n := roundHalfEven (q * 10)
  let sign := if n < 0 then "-" else ""
  sign ++ toString (n.natAbs / 10) ++ "." ++ toString (n.natAbs % 10)

/-- The numeric relevance transform of the scorer:
`1 / (1 + hit.distance)` (mcp_server_http.py line 119,
gcp_simulation/main.py line 105). -/
def relevance_fraction (d : ℚ) : ℚ := 1 / (1 + d)

/-- The rendered relevance string:
`f"{(1 / (1 + hit.distance)) * 100:.1f}%"`. -/
def relevance_str (d : ℚ) : String :=
  formatFixed1 (relevance_fraction d * 100) ++ "%"


/- ===================== Search Engine ===================== -/

/-- A query embedding, as returned by the embedding model. -/
abbrev Vec := List ℚ

/-- The scalar attribute payload of one Milvus hit (the `output_fields`
requested by `collection.search`). -/
structure HitEntity where
  product_id : Int
  name : String
  category : String
  description : String
  price : ℚ
  in_stock : Bool
  brand : String
deriving DecidableEq

/-- One similarity-search hit: a distance plus the attribute payload. -/
structure Hit where
  distance : ℚ
  entity : HitEntity
deriving DecidableEq

/-- The process-wide warm-start state of the server: the readiness of the
embedding model (`embedding_model is not None`) and of Milvus
(`MILVUS_READY`), together with the two external capabilities — the
embedding model (`encode`) and the vector index (`collection.search`,
taking the query vector, the filter expression and the `limit`, and
returning one hits list per query vector). -/
structure ServerState where
  model_loaded : Bool
  milvus_ready : Bool
  embed : String → Vec
  index_search : Vec → String → Nat → List (List Hit)

/-- One entry of the `products` list assembled by the MCP server's
`search_products_logic`. -/
structure ProductResult where
  product_id : Int
  name : String
  category : String
  description : String
  price : ℚ
  in_stock : Bool
  brand : String
  relevance : String
deriving DecidableEq

/-- The dictionary returned by the MCP server's `search_products_logic`:
either the Milvus-unavailable payload
`{"error": ..., "query_received": ...}` or the success payload
`{"query": ..., "total_results": ..., "products": ...}`. -/
inductive SearchOutcome where
  | unavailable (error : String) (query_received : String)
  | success (query : String) (total_results : Nat) (products : List ProductResult)
deriving DecidableEq

namespace Mcp

/-- Function `generate_embedding` of mcp_server_http.py: raises when the model is
not loaded, otherwise encodes the text.  `Except.error` models a raised
exception. -/
def generate_embedding (st : ServerState) (text : String) : Except String Vec :=
  if st.model_loaded then Except.ok (st.embed text)
  else Except.error "Modello embedding non caricato"

/-- Function `search_products_logic` of mcp_server_http.py (lines 68-126): early
return of the error payload when Milvus is not ready; then embedding,
dynamic filter construction, index search, and assembly of the scored
product list (the nested `for hits in results: for hit in hits` loop). -/
def search_products_logic (st : ServerState) (query : String) (top_k : Nat)
    (max_price : Option ℚ) (category : Option String) (in_stock_only : Bool)
    (brand : Option String) : Except String SearchOutcome :=
  if !st.milvus_ready then
    Except.ok (SearchOutcome.unavailable "Milvus non connesso" query)
  else
    match generate_embedding st query with
    | Except.error e => Except.error e
    | Except.ok query_embedding =>
        let fexpr := filter_expr ⟨max_price, category, in_stock_only, brand⟩
        let results := st.index_search query_embedding fexpr top_k
        let products := (results.map (fun hits => hits.map (fun hit =>
          ProductResult.mk hit.entity.product_id hit.entity.name
            hit.entity.category hit.entity.description hit.entity.price
            hit.entity.in_stock hit.entity.brand
            (relevance_str hit.distance)))).flatten
        Except.ok (SearchOutcome.success query products.length products)

end Mcp

namespace Gcp

/-- One entry of the `products` list assembled by the GCP simulation's
`search_products_logic` (its `output_fields` omit `brand`). -/
structure ProductResult where
  product_id : Int
  name : String
  category : String
  description : String
  price : ℚ
  in_stock : Bool
  relevance : String
deriving DecidableEq

/-- The dictionary returned by the GCP simulation's
`search_products_logic`: either the unavailability payload
`{"error": ..., "details": ...}` or the success payload carrying
`filters_applied`. -/
inductive Outcome where
  | unavailable (error : String) (details : String)
  | success (query : String) (total_results : Nat) (products : List ProductResult)
      (filters_max_price : Option ℚ) (filters_category : Option String)
deriving DecidableEq

/-- Function `search_products_logic` of gcp_simulation/main.py (lines 60-123): a
single guard `if not MILVUS_READY or not embedding_model` returning the
structured unavailability payload, then embedding, filter construction,
search and scoring. -/
def search_products_logic (st : ServerState) (query : String) (top_k : Nat)
    (max_price : Option ℚ) (category : Option String) (in_stock_only : Bool)
    (brand : Option String) : Except String Outcome :=
  if !st.milvus_ready || !st.model_loaded then
    Except.ok (Outcome.unavailable "Servizio non disponibile (DB o Modello offline)"
      "Verifica la connessione a Milvus.")
  else
    let query_embedding := st.embed query
    let fexpr := filter_expr ⟨max_price, category, in_stock_only, brand⟩
    let results := st.index_search query_embedding fexpr top_k
    let products := (results.map (fun hits => hits.map (fun hit =>
      ProductResult.mk hit.entity.product_id hit.entity.name
        hit.entity.category hit.entity.description hit.entity.price
        hit.entity.in_stock (relevance_str hit.distance)))).flatten
    Except.ok (Outcome.success query products.length products max_price category)

end Gcp

/- ===================== Protocol Dispatcher ===================== -/

/-- A JSON-RPC correlation identifier (a JSON number or string). -/
inductive JsonId where
  | num : Int → JsonId
  | str : String → JsonId
deriving DecidableEq

/-- The `arguments` object of a `tools/call` request; every key is
optional, `search_products_logic(**args)` fails when `query` is absent. -/
structure CallArgs where
  query : Option String
  top_k : Option Nat
  max_price : Option ℚ
  category : Option String
  in_stock_only : Option Bool
  brand : Option String
deriving DecidableEq

/-- The `arguments` object with no keys (`params.get("arguments", {})`
default). -/
def emptyArgs : CallArgs := ⟨none, none, none, none, none, none⟩

/-- The `params` member of the envelope; only `arguments` is ever read. -/
structure McpParams where
  arguments : Option CallArgs
deriving DecidableEq

/-- A parsed JSON-RPC envelope: `payload.get("id")`, `payload.get("method")`
(each absent when the object lacks the key) and `payload.get("params", {})`. -/
structure McpRequest where
  id : Option JsonId
  method : Option String
  params : McpParams
deriving DecidableEq

/-- The result member of a successful JSON-RPC response, one constructor
per dispatcher branch. -/
inductive RpcResult where
  | initResult (protocolVersion serverName serverVersion : String)
  | ack (b : Bool)
  | toolsList (toolName : String)
  | content (result : SearchOutcome)
  | empty
deriving DecidableEq

/-- A JSON-RPC response object: `{jsonrpc, id, result}` or
`{jsonrpc, id, error: {code, message}}`. -/
inductive McpResponse where
  | result (id : Option JsonId) (res : RpcResult)
  | rpcError (id : Option JsonId) (code : Int) (message : String)
deriving DecidableEq

/-- The `id` member carried by a response. -/
def McpResponse.respId : McpResponse → Option JsonId
  | McpResponse.result i _ => i
  | McpResponse.rpcError i _ _ => i

/-- Python keyword application `search_products_logic(**args)`: binding
fails (`TypeError`, modelled as `Except.error`) when the required `query`
is absent; the optional parameters take their declared defaults
(`top_k=5`, `in_stock_only=False`). -/
def kwargs_call (st : ServerState) (args : CallArgs) : Except String SearchOutcome :=
  match args.query with
  | none => Except.error
      "search_products_logic() missing 1 required positional argument: query"
  | some q =>
      Mcp.search_products_logic st q (args.top_k.getD 5) args.max_price
        args.category (args.in_stock_only.getD false) args.brand

/-- The `/mcp` handler of mcp_server_http.py (lines 146-227) after the
body has been parsed: the JSON-RPC method dispatch.  The `tools/call`
branch wraps `search_products_logic(**args)` in try/except, converting
any raised exception into a JSON-RPC error with code -32000; an unknown
method falls through to the -32601 error. -/
def handle_mcp (st : ServerState) (req : McpRequest) : McpResponse :=
  if req.method = some "initialize" then
    McpResponse.result req.id (RpcResult.initResult "2024-11-05" "ecommerce-mcp" "1.0.0")
  else if req.method = some "notifications/initialized" then
    McpResponse.result req.id (RpcResult.ack true)
  else if req.method = some "tools/list" then
    McpResponse.result req.id (RpcResult.toolsList "search_products")
  else if req.method = some "tools/call" then
    match kwargs_call st (req.params.arguments.getD emptyArgs) with
    | Except.ok r => McpResponse.result req.id (RpcResult.content r)
    | Except.error e => McpResponse.rpcError req.id (-32000) e
  else if req.method = some "ping" then
    McpResponse.result req.id RpcResult.empty
  else
    McpResponse.rpcError req.id (-32601) "Method not found"

/-- The possible shapes of a POST body for `/mcp`: a body that
`request.json()` fails to parse, a body that parses to a JSON value that
is not an object (so `payload.get` raises `AttributeError`), or a JSON
object, read into the envelope fields. -/
inductive RequestBody where
  | invalid
  | nonObjectJson
  | envelope (req : McpRequest)

/-- The transport-level outcome of one `/mcp` POST: an `HTTPException`
raised deliberately (`httpError`), an exception escaping the handler —
surfaced by the framework as a 500-class server error (`uncaughtError`) —
or a JSON-RPC response. -/
inductive HttpOutcome where
  | httpError (status : Nat) (detail : String)
  | uncaughtError (msg : String)
  | response (resp : McpResponse)

/-- The full `/mcp` endpoint (mcp_server_http.py lines 146-227): the
try/except around `request.json()` raises `HTTPException(400)` for an
unparseable body; a parsed non-object body makes `payload.get("id")`
raise `AttributeError`, which is not caught; an object body is
dispatched. -/
def handle_mcp_endpoint (st : ServerState) : RequestBody → HttpOutcome
  | RequestBody.invalid => HttpOutcome.httpError 400 "Invalid JSON"
  | RequestBody.nonObjectJson =>
      HttpOutcome.uncaughtError "AttributeError: object has no attribute get"
  | RequestBody.envelope req => HttpOutcome.response (handle_mcp st req)

/-- Does the transport outcome reject the request with a 4xx client-error
status? -/
def is4xx : HttpOutcome → Bool
  | HttpOutcome.httpError status _ => 400 ≤ status && status < 500
  | _ => false

/- ===================== Catalog Indexer (ETL) ===================== -/

/-- A raw source record from `products.json`: a JSON object in which any
required key may be missing (`none`). -/
structure RawProduct where
  product_id : Option Int
  name : Option String
  description : Option String
  category : Option String
  price : Option ℚ
  in_stock : Option Bool
  brand : Option String
deriving DecidableEq

/-- One fully validated row of the `products` collection. -/
structure ProductRow where
  product_id : Int
  embedding : Vec
  name : String
  description : String
  category : String
  price : ℚ
  in_stock : Bool
  brand : String
deriving DecidableEq

/-- The state of the Milvus `products` collection during the ETL run. -/
structure MilvusCollection where
  entities : List ProductRow
  indexed : Bool
  loaded : Bool
deriving DecidableEq

/-- Python subscript `p[key]`: `KeyError` (an exception) when the key is
missing. -/
def getItem {α : Type} (key : String) : Option α → Except String α
  | some v => Except.ok v
  | none => Except.error ("KeyError: " ++ key)

/-- A Python list comprehension over a fallible element expression:
elements are evaluated left to right and the first raised exception
aborts the whole comprehension. -/
def listComp {α β : Type} (f : α → Except String β) : List α → Except String (List β)
  | [] => Except.ok []
  | a :: l =>
      match f a with
      | Except.error e => Except.error e
      | Except.ok b =>
          match listComp f l with
          | Except.error e => Except.error e
          | Except.ok bs => Except.ok (b :: bs)

/-- Function `create_collection` of ingest.py: drop any existing collection, create
it with the declared schema, and build the vector index — yielding a
fresh, empty, not-yet-loaded collection. -/
def create_collection : MilvusCollection := ⟨[], true, false⟩

/-- Zip the eight column lists prepared by `insert_products` back into
rows (the Milvus-internal columnar-to-row pairing). -/
def mkRows : List Int → List Vec → List String → List String → List String →
    List ℚ → List Bool → List String → List ProductRow
  | i :: is, e :: es, n :: ns, d :: ds, c :: cs, p :: ps, s :: ss, b :: bs =>
      ⟨i, e, n, d, c, p, s, b⟩ :: mkRows is es ns ds cs ps ss bs
  | _, _, _, _, _, _, _, _ => []

/-- Function `insert_products` of ingest.py (lines 115-134): eight column
comprehensions (`[p["product_id"] for p in products]`, ...) evaluated
before the single `collection.insert(data)`; a missing key raises before
anything is inserted. -/
def insert_products (c : MilvusCollection) (products : List RawProduct)
    (embeddings : List Vec) : Except String MilvusCollection :=
  match listComp (fun p => getItem "product_id" p.product_id) products with
  | Except.error e => Except.error e
  | Except.ok ids =>
  match listComp (fun p => getItem "name" p.name) products with
  | Except.error e => Except.error e
  | Except.ok names =>
  match listComp (fun p => getItem "description" p.description) products with
  | Except.error e => Except.error e
  | Except.ok descriptions =>
  match listComp (fun p => getItem "category" p.category) products with
  | Except.error e => Except.error e
  | Except.ok categories =>
  match listComp (fun p => getItem "price" p.price) products with
  | Except.error e => Except.error e
  | Except.ok prices =>
  match listComp (fun p => getItem "in_stock" p.in_stock) products with
  | Except.error e => Except.error e
  | Except.ok stocks =>
  match listComp (fun p => getItem "brand" p.brand) products with
  | Except.error e => Except.error e
  | Except.ok brands =>
      Except.ok { c with
        entities := c.entities ++ mkRows ids embeddings names descriptions
          categories prices stocks brands }

/-- Function `main` of ingest.py from the point where the records are in hand
(steps 2, 5, 6, 7): create the collection, run the description
comprehension, embed, insert, and load.  The first component is the
resulting collection state (unchanged from the freshly created empty one
when a step raises); the second is `.ok` iff the run completed. -/
def etl_main (embed : String → Vec) (products : List RawProduct) :
    MilvusCollection × Except String Unit :=
  let c := create_collection
  match listComp (fun p => getItem "description" p.description) products with
  | Except.error e => (c, Except.error e)
  | Except.ok descriptions =>
      let embeddings := descriptions.map embed
      match insert_products c products embeddings with
      | Except.error e => (c, Except.error e)
      | Except.ok c2 => ({ c2 with loaded := true }, Except.ok ())

/-- Is an `Except` value a raised exception? -/
def exceptIsError {ε α : Type} : Except ε α → Bool
  | Except.error _ => true
  | Except.ok _ => false

/- ===================== Concrete states and inputs ===================== -/

/-- An embedding model stub. -/
def zeroEmbed : String → Vec := fun _ => []

/-- A vector index stub returning no hits. -/
def noHits : Vec → String → Nat → List (List Hit) := fun _ _ _ => []

/-- Model loaded and Milvus ready, empty index. -/
def stReady : ServerState := ⟨true, true, zeroEmbed, noHits⟩

/-- Milvus ready but the embedding model failed to load. -/
def stModelDown : ServerState := ⟨false, true, zeroEmbed, noHits⟩

/-- Model loaded but Milvus unavailable. -/
def stMilvusDown : ServerState := ⟨true, false, zeroEmbed, noHits⟩

/-- A hit carrying a (mis-configured) negative distance. -/
def negHit : Hit := ⟨-(1 / 2), ⟨1, "X", "C", "D", 10, true, "B"⟩⟩

/-- A ready server whose index reports one hit at distance -0.5. -/
def stNegDist : ServerState := ⟨true, true, zeroEmbed, fun _ _ _ => [[negHit]]⟩

/-- A sample fully present filter. -/
def fAll : SearchFilter := ⟨some 100, some "Footwear", true, some "ActiveGear"⟩

/-- A `ping` request. -/
def reqPing : McpRequest := ⟨some (JsonId.num 7), some "ping", ⟨none⟩⟩

/-- A request with an unknown method. -/
def reqUnknown : McpRequest := ⟨some (JsonId.num 8), some "bogus/method", ⟨none⟩⟩

/-- A `tools/call` request whose arguments lack `query`. -/
def reqNoQuery : McpRequest :=
  ⟨some (JsonId.num 9), some "tools/call", ⟨some emptyArgs⟩⟩

/-- A source record whose `brand` key is missing. -/
def rawBrandless : RawProduct :=
  ⟨some 1, some "Shoe", some "desc", some "Footwear", some 10, some true, none⟩

/-- A source record is malformed when one of the seven required keys is
missing (spec section 4.1 failure conditions). -/
def malformed (p : RawProduct) : Prop :=
  p.product_id = none ∨ p.name = none ∨ p.description = none ∨
    p.category = none ∨ p.price = none ∨ p.in_stock = none ∨ p.brand = none

/- ===================== Helper lemmas ===================== -/

theorem string_data_append (s t : String) : (s ++ t).data = s.data ++ t.data := rfl

/-- Two strings differ when their first `n` characters differ and the left
one is a literal prefix of length `n` followed by anything. -/
theorem ne_append_one {t a : String} (s : String) (n : Nat)
    (hn : a.data.length = n) (h : t.data.take n ≠ a.data) : t ≠ a ++ s := by
  intro e
  apply h
  rw [e, string_data_append, List.take_left' hn]

/-- As `ne_append_one`, for a prefix followed by two appended pieces. -/
theorem ne_append_two {t a : String} (s u : String) (n : Nat)
    (hn : a.data.length = n) (h : t.data.take n ≠ a.data) : t ≠ a ++ s ++ u := by
  intro e
  apply h
  rw [e, string_data_append, string_data_append, List.append_assoc,
    List.take_left' hn]

theorem stock_false_not_in_price (mp : Option ℚ) :
    "in_stock == false" ∉ priceConstraint mp := by
  cases mp with
  | none => simp [priceConstraint]
  | some v =>
      simp only [priceConstraint, List.mem_singleton]
      exact ne_append_one (pyFloatStr v) 9 (by decide) (by decide)

theorem stock_false_not_in_category (c : Option String) :
    "in_stock == false" ∉ categoryConstraint c := by
  cases c with
  | none => simp [categoryConstraint]
  | some v =>
      by_cases hv : v = ""
      · simp [categoryConstraint, hv]
      · simp only [categoryConstraint, if_neg hv, List.mem_singleton]
        exact ne_append_two v "\"" 13 (by decide) (by decide)

theorem stock_false_not_in_stock (b : Bool) :
    "in_stock == false" ∉ stockConstraint b := by
  cases b <;> simp [stockConstraint]

theorem stock_false_not_in_brand (b : Option String) :
    "in_stock == false" ∉ brandConstraint b := by
  cases b with
  | none => simp [brandConstraint]
  | some v =>
      by_cases hv : v = ""
      · simp [brandConstraint, hv]
      · simp only [brandConstraint, if_neg hv, List.mem_singleton]
        exact ne_append_two v "\"" 10 (by decide) (by decide)

/-- The sequential append-style construction of the code equals the
spec-side concatenation of per-field constraint lists. -/
theorem build_filter_parts_eq_spec (f : SearchFilter) :
    build_filter_parts f = specConstraints f := by
  rcases f with ⟨mp, cat, stock, br⟩
  cases mp <;> cases cat <;> cases stock <;> cases br <;>
    simp only [build_filter_parts, specConstraints, priceConstraint,
      categoryConstraint, stockConstraint, brandConstraint] <;>
    split_ifs <;> simp_all

theorem listComp_error_of_mem {α β : Type} {f : α → Except String β} {l : List α}
    {a : α} (ha : a ∈ l) {e : String} (he : f a = Except.error e) :
    ∃ msg, listComp f l = Except.error msg := by
  induction l with
  | nil => cases ha
  | cons x xs ih =>
      rcases List.mem_cons.mp ha with rfl | hmem
      · exact ⟨e, by simp [listComp, he]⟩
      · cases hfx : f x with
        | error e2 => exact ⟨e2, by simp [listComp, hfx]⟩
        | ok b =>
            obtain ⟨msg, hmsg⟩ := ih hmem
            exact ⟨msg, by simp [listComp, hfx, hmsg]⟩

theorem listComp_ok_forall {α β : Type} {f : α → Except String β} :
    ∀ (l : List α) (v : List β), listComp f l = Except.ok v →
      ∀ a ∈ l, ∃ b, f a = Except.ok b := by
  intro l
  induction l with
  | nil => intro v h a ha; cases ha
  | cons x xs ih =>
      intro v h a ha
      cases hfx : f x with
      | error e => rw [listComp, hfx] at h; simp at h
      | ok b =>
          rw [listComp, hfx] at h
          cases hrest : listComp f xs with
          | error e => rw [hrest] at h; simp at h
          | ok bs =>
              rw [hrest] at h
              rcases List.mem_cons.mp ha with rfl | hmem
              · exact ⟨b, hfx⟩
              · exact ih bs hrest a hmem

theorem getItem_ok_ne_none {α : Type} {key : String} {o : Option α} {b : α}
    (h : getItem key o = Except.ok b) : o ≠ none := by
  intro ho
  rw [ho] at h
  simp [getItem] at h

/-- A successful bulk insert certifies that every record had all seven
required keys. -/
theorem insert_products_ok_fields {c : MilvusCollection} {products : List RawProduct}
    {embeddings : List Vec} {c2 : MilvusCollection}
    (h : insert_products c products embeddings = Except.ok c2) :
    ∀ p ∈ products, p.product_id ≠ none ∧ p.name ≠ none ∧ p.description ≠ none ∧
      p.category ≠ none ∧ p.price ≠ none ∧ p.in_stock ≠ none ∧ p.brand ≠ none := by
  intro p hp
  unfold insert_products at h
  cases h1 : listComp (fun p => getItem "product_id" p.product_id) products with
  | error e => rw [h1] at h; simp at h
  | ok ids =>
  rw [h1] at h
  cases h2 : listComp (fun p => getItem "name" p.name) products with
  | error e => rw [h2] at h; simp at h
  | ok names =>
  rw [h2] at h
  cases h3 : listComp (fun p => getItem "description" p.description) products with
  | error e => rw [h3] at h; simp at h
  | ok descriptions =>
  rw [h3] at h
  cases h4 : listComp (fun p => getItem "category" p.category) products with
  | error e => rw [h4] at h; simp at h
  | ok categories =>
  rw [h4] at h
  cases h5 : listComp (fun p => getItem "price" p.price) products with
  | error e => rw [h5] at h; simp at h
  | ok prices =>
  rw [h5] at h
  cases h6 : listComp (fun p => getItem "in_stock" p.in_stock) products with
  | error e => rw [h6] at h; simp at h
  | ok stocks =>
  rw [h6] at h
  cases h7 : listComp (fun p => getItem "brand" p.brand) products with
  | error e => rw [h7] at h; simp at h
  | ok brands =>
  refine ⟨?_, ?_, ?_, ?_, ?_, ?_, ?_⟩
  · obtain ⟨b, hb⟩ := listComp_ok_forall products ids h1 p hp
    exact getItem_ok_ne_none hb
  · obtain ⟨b, hb⟩ := listComp_ok_forall products names h2 p hp
    exact getItem_ok_ne_none hb
  · obtain ⟨b, hb⟩ := listComp_ok_forall products descriptions h3 p hp
    exact getItem_ok_ne_none hb
  · obtain ⟨b, hb⟩ := listComp_ok_forall products categories h4 p hp
    exact getItem_ok_ne_none hb
  · obtain ⟨b, hb⟩ := listComp_ok_forall products prices h5 p hp
    exact getItem_ok_ne_none hb
  · obtain ⟨b, hb⟩ := listComp_ok_forall products stocks h6 p hp
    exact getItem_ok_ne_none hb
  · obtain ⟨b, hb⟩ := listComp_ok_forall products brands h7 p hp
    exact getItem_ok_ne_none hb

/- ===================== Claims ===================== -/

/-- C1: for every `SearchFilter`, the filter expression passed to the
vector index is the conjunction (joined with the logical AND of the
predicate language) of exactly the atomic constraints of the non-absent
fields — `price <= max_price`, `category == "<value>"`,
`in_stock == true` only when `in_stock_only` is true, `brand == "<value>"`
— the constraint `in_stock == false` is never emitted, and the all-absent
filter yields the unconstrained (empty) match-all expression. -/
theorem C1_filter_predicate (f : SearchFilter) :
    filter_expr f = specPredicate f ∧
    "in_stock == false" ∉ build_filter_parts f ∧
    filter_expr ⟨none, none, false, none⟩ = "" := by
  refine ⟨?_, ?_, rfl⟩
  · unfold filter_expr specPredicate
    rw [build_filter_parts_eq_spec]
    by_cases h : specConstraints f = []
    · rw [h]; simp [String.intercalate]
    · rw [if_neg h]
  · rw [build_filter_parts_eq_spec]
    unfold specConstraints
    intro hmem
    rcases List.mem_append.mp hmem with hmem1 | hbr
    · rcases List.mem_append.mp hmem1 with hmem2 | hst
      · rcases List.mem_append.mp hmem2 with hpr | hcat
        · exact stock_false_not_in_price f.max_price hpr
        · exact stock_false_not_in_category f.category hcat
      · exact stock_false_not_in_stock f.in_stock_only hst
    · exact stock_false_not_in_brand f.brand hbr

/-- Witness for C1 at a concrete fully populated filter. -/
theorem C1_filter_predicate_witness :
    filter_expr fAll = specPredicate fAll ∧
    "in_stock == false" ∉ build_filter_parts fAll ∧
    filter_expr ⟨none, none, false, none⟩ = "" :=
  C1_filter_predicate fAll

/-- C2: the JSON-RPC dispatcher answers a `tools/call` request lacking
`query` with a JSON-RPC error object of code -32000 (the caught
`TypeError`, not an uncaught exception), answers any method outside the
five recognised ones with code -32601, and answers `ping` with the empty
success result object regardless of the readiness of the embedding model
and Milvus. -/
theorem C2_dispatcher (st : ServerState) (req : McpRequest) :
    (req.method = some "tools/call" →
      (req.params.arguments.getD emptyArgs).query = none →
      handle_mcp st req = McpResponse.rpcError req.id (-32000)
        "search_products_logic() missing 1 required positional argument: query") ∧
    (req.method ∉ [some "initialize", some "notifications/initialized",
        some "tools/list", some "tools/call", some "ping"] →
      handle_mcp st req = McpResponse.rpcError req.id (-32601) "Method not found") ∧
    (req.method = some "ping" →
      handle_mcp st req = McpResponse.result req.id RpcResult.empty) := by
  refine ⟨?_, ?_, ?_⟩
  · intro h1 h2
    simp [handle_mcp, h1, kwargs_call, h2]
  · intro h
    simp only [List.mem_cons, List.not_mem_nil, or_false, not_or] at h
    obtain ⟨h1, h2, h3, h4, h5⟩ := h
    simp [handle_mcp, h1, h2, h3, h4, h5]
  · intro h
    simp [handle_mcp, h]

/-- Witness for C2 at concrete requests and states. -/
theorem C2_dispatcher_witness :
    handle_mcp stReady reqNoQuery = McpResponse.rpcError (some (JsonId.num 9)) (-32000)
      "search_products_logic() missing 1 required positional argument: query" ∧
    handle_mcp stReady reqUnknown =
      McpResponse.rpcError (some (JsonId.num 8)) (-32601) "Method not found" ∧
    handle_mcp stModelDown reqPing =
      McpResponse.result (some (JsonId.num 7)) RpcResult.empty :=
  ⟨(C2_dispatcher stReady reqNoQuery).1 rfl rfl,
   (C2_dispatcher stReady reqUnknown).2.1 (by decide),
   (C2_dispatcher stModelDown reqPing).2.2 rfl⟩

/-- C3 counterexample: in the MCP HTTP server, a search invoked while the
embedding model is unavailable but Milvus is ready raises an exception
(`generate_embedding` raises) instead of returning a structured
unavailability payload, refuting the claim for this unavailability
cause. -/
theorem C3_counterexample :
    exceptIsError (Mcp.search_products_logic stModelDown "laptop" 5 none none
      false none) = true := rfl

/-- C3 amended: when Milvus is not ready the MCP server's search returns
the structured payload without raising; when Milvus is ready but the
model is unavailable it raises (the dispatcher later converts this to a
JSON-RPC error); the GCP simulation returns a structured unavailability
payload without raising for either cause. -/
theorem C3_amended_unavailability (st : ServerState) (query : String) (top_k : Nat)
    (max_price : Option ℚ) (category : Option String) (in_stock_only : Bool)
    (brand : Option String) :
    (st.milvus_ready = false →
      Mcp.search_products_logic st query top_k max_price category in_stock_only brand =
        Except.ok (SearchOutcome.unavailable "Milvus non connesso" query)) ∧
    (st.milvus_ready = true → st.model_loaded = false →
      Mcp.search_products_logic st query top_k max_price category in_stock_only brand =
        Except.error "Modello embedding non caricato") ∧
    (st.milvus_ready = false ∨ st.model_loaded = false →
      Gcp.search_products_logic st query top_k max_price category in_stock_only brand =
        Except.ok (Gcp.Outcome.unavailable
          "Servizio non disponibile (DB o Modello offline)"
          "Verifica la connessione a Milvus.")) := by
  refine ⟨?_, ?_, ?_⟩
  · intro h
    simp [Mcp.search_products_logic, h]
  · intro h1 h2
    simp [Mcp.search_products_logic, Mcp.generate_embedding, h1, h2]
  · intro h
    rcases h with h | h <;> simp [Gcp.search_products_logic, h]

/-- Witness for C3's amended statement at concrete degraded states. -/
theorem C3_amended_unavailability_witness :
    Mcp.search_products_logic stMilvusDown "q" 5 none none false none =
      Except.ok (SearchOutcome.unavailable "Milvus non connesso" "q") ∧
    Mcp.search_products_logic stModelDown "q" 5 none none false none =
      Except.error "Modello embedding non caricato" ∧
    Gcp.search_products_logic stModelDown "q" 5 none none false none =
      Except.ok (Gcp.Outcome.unavailable
        "Servizio non disponibile (DB o Modello offline)"
        "Verifica la connessione a Milvus.") :=
  ⟨(C3_amended_unavailability stMilvusDown "q" 5 none none false none).1 rfl,
   (C3_amended_unavailability stModelDown "q" 5 none none false none).2.1 rfl rfl,
   (C3_amended_unavailability stModelDown "q" 5 none none false none).2.2 (Or.inr rfl)⟩

/-- C4: the relevance scorer renders distance 0.0 as "100.0%" and
distance 1.0 as "50.0%", and the underlying relevance value
`1 / (1 + distance)` is strictly decreasing on non-negative distances. -/
theorem C4_relevance_scorer :
    relevance_str 0 = "100.0%" ∧ relevance_str 1 = "50.0%" ∧
    ∀ d1 d2 : ℚ, 0 ≤ d1 → d1 < d2 →
      relevance_fraction d2 < relevance_fraction d1 := by
  refine ⟨by with_unfolding_all decide, by with_unfolding_all decide, ?_⟩
  intro d1 d2 h0 h12
  unfold relevance_fraction
  have h1 : (0 : ℚ) < 1 + d1 := by linarith
  have h2 : (1 : ℚ) + d1 < 1 + d2 := by linarith
  exact one_div_lt_one_div_of_lt h1 h2

/-- Witness for C4's monotonicity at distances 0 and 1. -/
theorem C4_relevance_scorer_witness :
    relevance_str 0 = "100.0%" ∧ relevance_fraction 1 < relevance_fraction 0 :=
  ⟨C4_relevance_scorer.1, C4_relevance_scorer.2.2 0 1 le_rfl one_pos⟩

/-- C5 (code bug): no defensive check rejects a negative distance — the
scorer is applied as-is, and a search whose index reports the
(mis-configured) distance -0.5 silently yields a product scored
"200.0%". -/
theorem C5_negative_distance_scored :
    Mcp.search_products_logic stNegDist "q" 5 none none false none =
      Except.ok (SearchOutcome.success "q" 1
        [⟨1, "X", "C", "D", 10, true, "B", "200.0%"⟩]) := by
  with_unfolding_all rfl

/-- C6: provided the vector index honours its `limit` contract (at most
`top_k` hits for the query vector), a successful search returns a product
list of length at most `top_k`, and `total_results` equals the length of
the returned list. -/
theorem C6_topk_bound (st : ServerState) (query : String) (top_k : Nat)
    (max_price : Option ℚ) (category : Option String) (in_stock_only : Bool)
    (brand : Option String)
    (hidx : ∀ emb fexpr k, ((st.index_search emb fexpr k).map List.length).sum ≤ k)
    (q : String) (tr : Nat) (ps : List ProductResult)
    (h : Mcp.search_products_logic st query top_k max_price category in_stock_only
        brand = Except.ok (SearchOutcome.success q tr ps)) :
    tr = ps.length ∧ ps.length ≤ top_k := by
  simp only [Mcp.search_products_logic, Mcp.generate_embedding] at h
  split at h
  · exact absurd h (by simp)
  · split at h
    · exact absurd h (by simp)
    · rename_i query_embedding heq
      simp only [Except.ok.injEq, SearchOutcome.success.injEq] at h
      obtain ⟨hq, htr, hps⟩ := h
      refine ⟨?_, ?_⟩
      · rw [← htr, ← hps]
      · rw [← hps]
        have hb := hidx query_embedding
          (filter_expr ⟨max_price, category, in_stock_only, brand⟩) top_k
        simpa [List.length_flatten, List.map_map, Function.comp_def,
          List.length_map] using hb

/-- Witness for C6 at a ready state with an empty index. -/
theorem C6_topk_bound_witness :
    0 = ([] : List ProductResult).length ∧ ([] : List ProductResult).length ≤ 5 :=
  C6_topk_bound stReady "q" 5 none none false none
    (by intro emb fexpr k; simp [stReady, noHits]) "q" 0 [] rfl

/-- C7 counterexample: a request body that parses as JSON but is not an
object — hence not parseable as the expected envelope — is not rejected
with a 4xx client-error status; `payload.get` raises an uncaught
`AttributeError` instead. -/
theorem C7_counterexample :
    is4xx (handle_mcp_endpoint stReady RequestBody.nonObjectJson) = false := rfl

/-- C7 amended: only a body that fails JSON parsing is rejected with the
400 client-error before dispatch; a JSON body that is not an object
raises an uncaught server-side error, and any JSON object — whatever
fields it lacks — is dispatched to the method handler. -/
theorem C7_amended_transport (st : ServerState) :
    handle_mcp_endpoint st RequestBody.invalid =
      HttpOutcome.httpError 400 "Invalid JSON" ∧
    is4xx (handle_mcp_endpoint st RequestBody.invalid) = true ∧
    handle_mcp_endpoint st RequestBody.nonObjectJson =
      HttpOutcome.uncaughtError "AttributeError: object has no attribute get" ∧
    ∀ req : McpRequest, handle_mcp_endpoint st (RequestBody.envelope req) =
      HttpOutcome.response (handle_mcp st req) :=
  ⟨rfl, rfl, rfl, fun _ => rfl⟩

/-- C8: every dispatcher response — success or error, on every method
branch including the unknown-method branch — carries the request's
correlation identifier unchanged. -/
theorem C8_id_roundtrip (st : ServerState) (req : McpRequest) :
    (handle_mcp st req).respId = req.id := by
  unfold handle_mcp
  repeat' split
  all_goals rfl

/-- C9: a malformed source record (any of the seven required keys
missing) anywhere in the Catalog Indexer's input makes the whole build
fail with an error, and no rows of the batch are inserted — the freshly
created collection is left empty, never partially populated. -/
theorem C9_failfast (embed : String → Vec) (products : List RawProduct)
    (p : RawProduct) (hp : p ∈ products) (hm : malformed p) :
    exceptIsError (etl_main embed products).2 = true ∧
      (etl_main embed products).1.entities = [] := by
  simp only [etl_main]
  split
  · simp [create_collection, exceptIsError]
  · next descriptions hdesc =>
      split
      · simp [create_collection, exceptIsError]
      · next c2 hins =>
          exfalso
          have hfields := insert_products_ok_fields hins p hp
          rcases hm with h | h | h | h | h | h | h
          · exact hfields.1 h
          · exact hfields.2.1 h
          · exact hfields.2.2.1 h
          · exact hfields.2.2.2.1 h
          · exact hfields.2.2.2.2.1 h
          · exact hfields.2.2.2.2.2.1 h
          · exact hfields.2.2.2.2.2.2 h

/-- Witness for C9 at a one-record batch whose `brand` key is missing. -/
theorem C9_failfast_witness :
    exceptIsError (etl_main zeroEmbed [rawBrandless]).2 = true ∧
      (etl_main zeroEmbed [rawBrandless]).1.entities = [] :=
  C9_failfast zeroEmbed [rawBrandless] rawBrandless (List.mem_singleton.mpr rfl)
    (Or.inr (Or.inr (Or.inr (Or.inr (Or.inr (Or.inr rfl))))))

/-- C10: the builder treats a present-but-empty string filter as absent
(`category = ""` and `brand = ""` emit no constraint), while
`max_price = 0.0` — falsy in Python but compared against `None` — does
emit `price <= 0.0`. -/
theorem C10_truthiness_asymmetry (f : SearchFilter) :
    build_filter_parts { f with category := some "" } =
      build_filter_parts { f with category := none } ∧
    build_filter_parts { f with brand := some "" } =
      build_filter_parts { f with brand := none } ∧
    build_filter_parts { f with max_price := some 0 } =
      "price <= 0.0" :: build_filter_parts { f with max_price := none } := by
  refine ⟨?_, ?_, ?_⟩
  · rw [build_filter_parts_eq_spec, build_filter_parts_eq_spec]
    simp [specConstraints, categoryConstraint]
  · rw [build_filter_parts_eq_spec, build_filter_parts_eq_spec]
    simp [specConstraints, brandConstraint]
  · rw [build_filter_parts_eq_spec, build_filter_parts_eq_spec]
    simp only [specConstraints, priceConstraint]
    rw [(by decide : "price <= " ++ pyFloatStr 0 = "price <= 0.0")]
    simp
